import Mathlib

/-!
Shallow embedding of the core of the `server-monitoring` repository:
the multi-region fan-out executor and result aggregator
(`src/aws/regions.py`), the RDS health classifier
(`src/services/rds_health.py`), and the alert detector
(`src/services/alerts.py`).

Conventions:
* Python floats are modelled as exact rationals (`ℚ`), Python ints as `ℤ`
  or `Nat`; `None` becomes `Option`.
* Python dicts that are used as records with a fixed set of optional keys
  become structures with `Option`al fields; `dict.get(k, d)` becomes
  `Option.getD`.
* A Python function that may raise is modelled as returning
  `Except String α` (the `String` is the exception message).
-/

/-! ## Health status and threshold table (`src/services/rds_health.py`) -/

/-- The `HealthStatus` enum of `rds_health.py`. -/
inductive HealthStatus where
  | HEALTHY
  | WARNING
  | CRITICAL
  | UNKNOWN
deriving DecidableEq, Repr

/-- The static threshold table `METRIC_THRESHOLDS`:
`metric name ↦ (warning_threshold, critical_threshold, is_upper_bound)`.
`is_upper_bound = true` means values above the threshold are bad. -/
def METRIC_THRESHOLDS : List (String × (ℚ × ℚ × Bool)) :=
  [ ("CPUUtilization", (70, 90, true)),
    ("FreeableMemory", (1/4, 1/10, false)),
    ("ReadLatency", (1/50, 1/20, true)),
    ("WriteLatency", (1/50, 1/20, true)),
    ("DiskQueueDepth", (10, 50, true)),
    ("DatabaseConnections", (4/5, 19/20, true)) ]

/-- The fallback total-memory denominator used by `calculate_metric_status`
when `total_memory_bytes` is absent or non-positive: 2 GiB in bytes. -/
def DEFAULT_TOTAL_MEMORY_BYTES : ℚ := 2 * 1024 * 1024 * 1024

/-- Embedding of `calculate_metric_status(metric_name, value,
total_memory_bytes, max_connections)`.  `value` and `total_memory_bytes`
are floats-or-None, `max_connections` is int-or-None. -/
def calculate_metric_status (metric_name : String) (value : Option ℚ)
    (total_memory_bytes : Option ℚ) (max_connections : Option ℤ) :
    HealthStatus :=
  match value with
  | none => HealthStatus.UNKNOWN
  | some v =>
    match METRIC_THRESHOLDS.lookup metric_name with
    | none => HealthStatus.UNKNOWN
    | some (warning_threshold, critical_threshold, is_upper_bound) =>
      if metric_name = "FreeableMemory" then
        -- `total_memory_bytes is None or total_memory_bytes <= 0` falls
        -- back to the fixed 2 GiB estimate.
        let total : ℚ :=
          match total_memory_bytes with
          | none => DEFAULT_TOTAL_MEMORY_BYTES
          | some t => if t ≤ 0 then DEFAULT_TOTAL_MEMORY_BYTES else t
        let r := v / total
        if r < critical_threshold then HealthStatus.CRITICAL
        else if r < warning_threshold then HealthStatus.WARNING
        else HealthStatus.HEALTHY
      else if metric_name = "DatabaseConnections" then
        match max_connections with
        | none => HealthStatus.HEALTHY
        | some m =>
          if m ≤ 0 then HealthStatus.HEALTHY
          else
            let r := v / (m : ℚ)
            if r ≥ critical_threshold then HealthStatus.CRITICAL
            else if r ≥ warning_threshold then HealthStatus.WARNING
            else HealthStatus.HEALTHY
      else
        if is_upper_bound then
          if v ≥ critical_threshold then HealthStatus.CRITICAL
          else if v ≥ warning_threshold then HealthStatus.WARNING
          else HealthStatus.HEALTHY
        else
          if v ≤ critical_threshold then HealthStatus.CRITICAL
          else if v ≤ warning_threshold then HealthStatus.WARNING
          else HealthStatus.HEALTHY

/-- The per-metric status list built by the loop at the top of
`get_overall_health(metrics, **kwargs)`: classify every metric of the dict
(modelled as an association list, preserving Python's dict iteration
order). -/
def metric_statuses (metrics : List (String × Option ℚ))
    (total_memory_bytes : Option ℚ) (max_connections : Option ℤ) :
    List HealthStatus :=
  metrics.map fun p =>
    calculate_metric_status p.1 p.2 total_memory_bytes max_connections

/-- Embedding of `get_overall_health(metrics, **kwargs)`: the worst-status
reduction over `metric_statuses`. -/
def get_overall_health (metrics : List (String × Option ℚ))
    (total_memory_bytes : Option ℚ) (max_connections : Option ℤ) :
    HealthStatus :=
  let statuses := metric_statuses metrics total_memory_bytes max_connections
  if HealthStatus.CRITICAL ∈ statuses then HealthStatus.CRITICAL
  else if HealthStatus.WARNING ∈ statuses then HealthStatus.WARNING
  else if statuses.all fun s => decide (s = HealthStatus.UNKNOWN) then
    HealthStatus.UNKNOWN
  else HealthStatus.HEALTHY

/-! ## Claims about the health classifier -/

/-- Claim C5 (confirmed): for every higher-is-worse metric in the
threshold table that takes the generic comparison path (CPUUtilization,
ReadLatency, WriteLatency, DiskQueueDepth), a present value classifies
CRITICAL when `value ≥ critical`, WARNING when `critical > value ≥
warning`, and HEALTHY otherwise; in particular CPUUtilization at 95 is
CRITICAL, at 75 WARNING, at 10 HEALTHY. -/
theorem higher_is_worse_bands (v : ℚ) (tm : Option ℚ) (mc : Option ℤ) :
    (calculate_metric_status "CPUUtilization" (some v) tm mc =
      (if v ≥ 90 then HealthStatus.CRITICAL
       else if v ≥ 70 then HealthStatus.WARNING
       else HealthStatus.HEALTHY))
  ∧ (calculate_metric_status "ReadLatency" (some v) tm mc =
      (if v ≥ 1/20 then HealthStatus.CRITICAL
       else if v ≥ 1/50 then HealthStatus.WARNING
       else HealthStatus.HEALTHY))
  ∧ (calculate_metric_status "WriteLatency" (some v) tm mc =
      (if v ≥ 1/20 then HealthStatus.CRITICAL
       else if v ≥ 1/50 then HealthStatus.WARNING
       else HealthStatus.HEALTHY))
  ∧ (calculate_metric_status "DiskQueueDepth" (some v) tm mc =
      (if v ≥ 50 then HealthStatus.CRITICAL
       else if v ≥ 10 then HealthStatus.WARNING
       else HealthStatus.HEALTHY))
  ∧ (calculate_metric_status "CPUUtilization" (some 95) tm mc =
      HealthStatus.CRITICAL)
  ∧ (calculate_metric_status "CPUUtilization" (some 75) tm mc =
      HealthStatus.WARNING)
  ∧ (calculate_metric_status "CPUUtilization" (some 10) tm mc =
      HealthStatus.HEALTHY) := by
  refine ⟨?_, ?_, ?_, ?_, ?_, ?_, ?_⟩ <;>
    simp [calculate_metric_status, METRIC_THRESHOLDS, List.lookup] <;> norm_num

/-- Claim C2, counterexample: at the exact critical boundary (ratio
`value / total = 1/10`) the code returns WARNING, not the CRITICAL the
claim's inclusive `≤` comparison demands. -/
theorem freeable_memory_inclusive_cex :
    ((1 : ℚ) / 10 ≤ 1 / 10)
  ∧ calculate_metric_status "FreeableMemory" (some 1) (some 10) none =
      HealthStatus.WARNING
  ∧ calculate_metric_status "FreeableMemory" (some 1) (some 10) none ≠
      HealthStatus.CRITICAL := by
  have hx : calculate_metric_status "FreeableMemory" (some 1) (some 10) none =
      HealthStatus.WARNING := by
    simp [calculate_metric_status, METRIC_THRESHOLDS, List.lookup]
    norm_num
  exact ⟨le_refl _, hx, by rw [hx]; decide⟩

/-- Claim C2 (corrected): for FreeableMemory with a present value and a
positive `total_memory_bytes`, the classification over `ratio = value /
total_memory_bytes` uses strict comparisons: CRITICAL when `ratio <
1/10`, WARNING when `1/10 ≤ ratio < 1/4`, HEALTHY when `ratio ≥ 1/4`
(exclusive, not inclusive, at both thresholds). -/
theorem freeable_memory_strict_bands (v t : ℚ) (mc : Option ℤ) (ht : 0 < t) :
    calculate_metric_status "FreeableMemory" (some v) (some t) mc =
      (if v / t < 1/10 then HealthStatus.CRITICAL
       else if v / t < 1/4 then HealthStatus.WARNING
       else HealthStatus.HEALTHY) := by
  simp [calculate_metric_status, METRIC_THRESHOLDS, List.lookup, not_le.mpr ht]

/-- Witness for `freeable_memory_strict_bands` at `value = 1`,
`total = 2`. -/
theorem freeable_memory_strict_bands_witness :
    (0 : ℚ) < 2
  ∧ calculate_metric_status "FreeableMemory" (some 1) (some 2) none =
      (if (1 : ℚ) / 2 < 1/10 then HealthStatus.CRITICAL
       else if (1 : ℚ) / 2 < 1/4 then HealthStatus.WARNING
       else HealthStatus.HEALTHY) :=
  ⟨by norm_num, freeable_memory_strict_bands 1 2 none (by norm_num)⟩

/-- Claim C8 (confirmed): the classifier is total — for every metric
name and context an absent value returns UNKNOWN unconditionally, before
any table lookup, and a present value with a metric name not in the
threshold table returns UNKNOWN.  (Totality over the whole input domain
is witnessed by `calculate_metric_status` being a total function.) -/
theorem classifier_total (name : String) (tm : Option ℚ) (mc : Option ℤ)
    (v : ℚ) :
    calculate_metric_status name none tm mc = HealthStatus.UNKNOWN
  ∧ (METRIC_THRESHOLDS.lookup name = none →
      calculate_metric_status name (some v) tm mc = HealthStatus.UNKNOWN) := by
  constructor
  · rfl
  · intro h
    simp [calculate_metric_status, h]

/-- Witness for `classifier_total`: the absent-value conjunct both at a
name in the threshold table (`"CPUUtilization"`) and at one outside it,
and the unknown-name conjunct at `"NoSuchMetric"`. -/
theorem classifier_total_witness :
    calculate_metric_status "CPUUtilization" none none none =
      HealthStatus.UNKNOWN
  ∧ calculate_metric_status "NoSuchMetric" none none none =
      HealthStatus.UNKNOWN
  ∧ METRIC_THRESHOLDS.lookup "NoSuchMetric" = none
  ∧ calculate_metric_status "NoSuchMetric" (some 5) none none =
      HealthStatus.UNKNOWN :=
  ⟨(classifier_total "CPUUtilization" none none 5).1,
   (classifier_total "NoSuchMetric" none none 5).1,
   by rfl,
   (classifier_total "NoSuchMetric" none none 5).2 (by rfl)⟩

/-- Claim C7 (confirmed): the two ratio-normalized metrics have divergent
fallback policies.  FreeableMemory with an absent or non-positive
`total_memory_bytes` falls back to the fixed 2 GiB denominator and
classifies the ratio; DatabaseConnections with an absent or non-positive
`max_connections` returns HEALTHY unconditionally — in particular
DatabaseConnections at value 50 with absent max is HEALTHY. -/
theorem ratio_fallback_divergence (v t : ℚ) (tm : Option ℚ)
    (mc : Option ℤ) (m : ℤ) (ht : t ≤ 0) (hm : m ≤ 0) :
    (calculate_metric_status "FreeableMemory" (some v) none mc =
      (if v / DEFAULT_TOTAL_MEMORY_BYTES < 1/10 then HealthStatus.CRITICAL
       else if v / DEFAULT_TOTAL_MEMORY_BYTES < 1/4 then HealthStatus.WARNING
       else HealthStatus.HEALTHY))
  ∧ (calculate_metric_status "FreeableMemory" (some v) (some t) mc =
      calculate_metric_status "FreeableMemory" (some v) none mc)
  ∧ (calculate_metric_status "DatabaseConnections" (some v) tm none =
      HealthStatus.HEALTHY)
  ∧ (calculate_metric_status "DatabaseConnections" (some v) tm (some m) =
      HealthStatus.HEALTHY)
  ∧ (calculate_metric_status "DatabaseConnections" (some 50) tm none =
      HealthStatus.HEALTHY) := by
  refine ⟨?_, ?_, ?_, ?_, ?_⟩ <;>
    simp [calculate_metric_status, METRIC_THRESHOLDS, List.lookup, ht, hm]

/-- Witness for `ratio_fallback_divergence` at `t = 0`, `m = 0`,
`v = 1`. -/
theorem ratio_fallback_divergence_witness :
    (0 : ℚ) ≤ 0
  ∧ (0 : ℤ) ≤ 0
  ∧ ((calculate_metric_status "FreeableMemory" (some 1) none none =
      (if (1 : ℚ) / DEFAULT_TOTAL_MEMORY_BYTES < 1/10 then
        HealthStatus.CRITICAL
       else if (1 : ℚ) / DEFAULT_TOTAL_MEMORY_BYTES < 1/4 then
        HealthStatus.WARNING
       else HealthStatus.HEALTHY))
    ∧ (calculate_metric_status "FreeableMemory" (some 1) (some 0) none =
        calculate_metric_status "FreeableMemory" (some 1) none none)
    ∧ (calculate_metric_status "DatabaseConnections" (some 1) none none =
        HealthStatus.HEALTHY)
    ∧ (calculate_metric_status "DatabaseConnections" (some 1) none (some 0) =
        HealthStatus.HEALTHY)
    ∧ (calculate_metric_status "DatabaseConnections" (some 50) none none =
        HealthStatus.HEALTHY)) :=
  ⟨le_refl 0, le_refl 0,
    ratio_fallback_divergence 1 0 none none 0 (le_refl 0) (le_refl 0)⟩

/-- Claim C6 (confirmed): on a non-empty metrics collection the
worst-status reduction of `get_overall_health` returns CRITICAL iff some
per-metric status is CRITICAL; else WARNING iff some status is WARNING;
UNKNOWN iff every status is UNKNOWN; HEALTHY otherwise — and in
particular a mix of HEALTHY and UNKNOWN statuses with no WARNING or
CRITICAL reduces to HEALTHY. -/
theorem overall_health_reduction (metrics : List (String × Option ℚ))
    (tm : Option ℚ) (mc : Option ℤ) (h : metrics ≠ []) :
    (get_overall_health metrics tm mc = HealthStatus.CRITICAL ↔
       HealthStatus.CRITICAL ∈ metric_statuses metrics tm mc)
  ∧ (get_overall_health metrics tm mc = HealthStatus.WARNING ↔
       (HealthStatus.CRITICAL ∉ metric_statuses metrics tm mc ∧
        HealthStatus.WARNING ∈ metric_statuses metrics tm mc))
  ∧ (get_overall_health metrics tm mc = HealthStatus.UNKNOWN ↔
       ∀ s ∈ metric_statuses metrics tm mc, s = HealthStatus.UNKNOWN)
  ∧ (get_overall_health metrics tm mc = HealthStatus.HEALTHY ↔
       (HealthStatus.CRITICAL ∉ metric_statuses metrics tm mc ∧
        HealthStatus.WARNING ∉ metric_statuses metrics tm mc ∧
        ∃ s ∈ metric_statuses metrics tm mc, s ≠ HealthStatus.UNKNOWN))
  ∧ ((∀ s ∈ metric_statuses metrics tm mc,
        s = HealthStatus.HEALTHY ∨ s = HealthStatus.UNKNOWN) →
     (∃ s ∈ metric_statuses metrics tm mc, s = HealthStatus.HEALTHY) →
     get_overall_health metrics tm mc = HealthStatus.HEALTHY) := by
  classical
  set L := metric_statuses metrics tm mc with hL
  by_cases hc : HealthStatus.CRITICAL ∈ L
  · have hres : get_overall_health metrics tm mc = HealthStatus.CRITICAL := by
      simp [get_overall_health, ← hL, hc]
    refine ⟨by simp [hres, hc], by simp [hres, hc], ?_, by simp [hres, hc], ?_⟩
    · simp only [hres]
      constructor
      · intro hh; cases hh
      · intro hall; exact hall _ hc
    · intro hall _
      rcases hall _ hc with h1 | h1 <;> exact absurd h1 (by decide)
  · by_cases hw : HealthStatus.WARNING ∈ L
    · have hres : get_overall_health metrics tm mc = HealthStatus.WARNING := by
        simp [get_overall_health, ← hL, hc, hw]
      refine ⟨by simp [hres, hc], by simp [hres, hc, hw], ?_,
        by simp [hres, hw], ?_⟩
      · simp only [hres]
        constructor
        · intro hh; cases hh
        · intro hall; exact hall _ hw
      · intro hall _
        rcases hall _ hw with h1 | h1 <;> exact absurd h1 (by decide)
    · by_cases hu : ∀ s ∈ L, s = HealthStatus.UNKNOWN
      · have hres : get_overall_health metrics tm mc = HealthStatus.UNKNOWN := by
          simp only [get_overall_health, ← hL]
          rw [if_neg hc, if_neg hw, if_pos]
          simp only [List.all_eq_true, decide_eq_true_eq]
          exact hu
        refine ⟨by simp [hres, hc], by simp [hres, hw], ?_, ?_, ?_⟩
        · simp only [hres, true_iff]
          exact hu
        · simp only [hres]
          constructor
          · intro hh; cases hh
          · rintro ⟨-, -, s, hs, hne⟩; exact absurd (hu s hs) hne
        · rintro - ⟨s, hs, hh⟩
          have hx := hu s hs
          rw [hh] at hx
          exact absurd hx (by decide)
      · have hres : get_overall_health metrics tm mc = HealthStatus.HEALTHY := by
          simp only [get_overall_health, ← hL]
          rw [if_neg hc, if_neg hw, if_neg]
          simp only [List.all_eq_true, decide_eq_true_eq]
          exact hu
        push_neg at hu
        obtain ⟨s, hs, hsne⟩ := hu
        refine ⟨by simp [hres, hc], by simp [hres, hc, hw], ?_, ?_,
          fun _ _ => hres⟩
        · simp only [hres]
          constructor
          · intro hh; cases hh
          · intro hall; exact absurd (hall s hs) hsne
        · simp only [hres, true_iff]
          exact ⟨hc, hw, s, hs, hsne⟩

/-- Witness for `overall_health_reduction` on the two-metric collection
`CPUUtilization = 10` (HEALTHY) and `NoSuchMetric = 1` (UNKNOWN). -/
theorem overall_health_reduction_witness :
    ([("CPUUtilization", some (10 : ℚ)), ("NoSuchMetric", some 1)] ≠
      ([] : List (String × Option ℚ)))
  ∧ ((get_overall_health
        [("CPUUtilization", some 10), ("NoSuchMetric", some 1)] none none =
          HealthStatus.CRITICAL ↔
       HealthStatus.CRITICAL ∈ metric_statuses
        [("CPUUtilization", some 10), ("NoSuchMetric", some 1)] none none)
    ∧ (get_overall_health
        [("CPUUtilization", some 10), ("NoSuchMetric", some 1)] none none =
          HealthStatus.WARNING ↔
       (HealthStatus.CRITICAL ∉ metric_statuses
          [("CPUUtilization", some 10), ("NoSuchMetric", some 1)] none none ∧
        HealthStatus.WARNING ∈ metric_statuses
          [("CPUUtilization", some 10), ("NoSuchMetric", some 1)] none none))
    ∧ (get_overall_health
        [("CPUUtilization", some 10), ("NoSuchMetric", some 1)] none none =
          HealthStatus.UNKNOWN ↔
       ∀ s ∈ metric_statuses
          [("CPUUtilization", some 10), ("NoSuchMetric", some 1)] none none,
         s = HealthStatus.UNKNOWN)
    ∧ (get_overall_health
        [("CPUUtilization", some 10), ("NoSuchMetric", some 1)] none none =
          HealthStatus.HEALTHY ↔
       (HealthStatus.CRITICAL ∉ metric_statuses
          [("CPUUtilization", some 10), ("NoSuchMetric", some 1)] none none ∧
        HealthStatus.WARNING ∉ metric_statuses
          [("CPUUtilization", some 10), ("NoSuchMetric", some 1)] none none ∧
        ∃ s ∈ metric_statuses
          [("CPUUtilization", some 10), ("NoSuchMetric", some 1)] none none,
          s ≠ HealthStatus.UNKNOWN))
    ∧ ((∀ s ∈ metric_statuses
          [("CPUUtilization", some 10), ("NoSuchMetric", some 1)] none none,
          s = HealthStatus.HEALTHY ∨ s = HealthStatus.UNKNOWN) →
       (∃ s ∈ metric_statuses
          [("CPUUtilization", some 10), ("NoSuchMetric", some 1)] none none,
          s = HealthStatus.HEALTHY) →
       get_overall_health
        [("CPUUtilization", some 10), ("NoSuchMetric", some 1)] none none =
          HealthStatus.HEALTHY)) :=
  ⟨by simp,
   overall_health_reduction
     [("CPUUtilization", some 10), ("NoSuchMetric", some 1)] none none
     (by simp)⟩

/-- Claim C10 (confirmed): on an empty metrics collection the
"every status is UNKNOWN" test is vacuously true, so
`get_overall_health` returns UNKNOWN. -/
theorem overall_health_empty_unknown (tm : Option ℚ) (mc : Option ℤ) :
    get_overall_health [] tm mc = HealthStatus.UNKNOWN := by
  simp [get_overall_health, metric_statuses]

/-! ## Alert detector (`src/services/alerts.py`) -/

/-- The `AlertSeverity` enum of `alerts.py`. -/
inductive AlertSeverity where
  | WARNING
  | CRITICAL
deriving DecidableEq, Repr

/-- The `Alert` dataclass of `alerts.py`. -/
structure Alert where
  resource_type : String
  resource_id : String
  resource_name : String
  region : String
  severity : AlertSeverity
  message : String
deriving DecidableEq, Repr

/-- An EC2 inventory record: a flat dict with the optional keys that
`detect_ec2_alerts` reads (`id`, `name`, `region`, `state`). -/
structure Ec2Instance where
  id : Option String
  name : Option String
  region : Option String
  state : Option String
deriving DecidableEq, Repr

/-- An RDS inventory record: a flat dict with the optional keys that
`detect_rds_alerts` reads (`id`, `region`, `status`). -/
structure RdsInstance where
  id : Option String
  region : Option String
  status : Option String
deriving DecidableEq, Repr

/-- Round `10 * x` to the nearest integer, ties to even — the rounding
Python's fixed-point formatting `f"...:.1f"` applies to the tenths
digit.  Computed directly on the numerator/denominator so it is
kernel-evaluable. -/
def roundTenthHalfEven (x : ℚ) : ℤ :=
  let num := 10 * x.num
  let den := (x.den : ℤ)
  let f := Int.fdiv num den
  let rem := num - f * den
  if 2 * rem < den then f
  else if den < 2 * rem then f + 1
  else if f % 2 = 0 then f else f + 1

/-- Embedding of Python's one-decimal fixed-point format used in the CPU
alert messages (`f" - :.1f"` applied to the rational CPU value). -/
def formatFixed1 (x : ℚ) : String :=
  let n := roundTenthHalfEven x
  let sign := if n < 0 then "-" else ""
  let m := n.natAbs
  sign ++ toString (m / 10) ++ "." ++ toString (m % 10)

/-- Embedding of `detect_ec2_alerts(instances, check_cpu)`.  The
collaborator `get_latest_cpu_utilization(instance_id, region, "AWS/EC2")`
is modelled as the function parameter `cpu_lookup` (the namespace
argument is the constant `"AWS/EC2"` and is dropped). -/
def detect_ec2_alerts (instances : List Ec2Instance) (check_cpu : Bool)
    (cpu_lookup : String → String → Option ℚ) : List Alert :=
  match instances with
  | [] => []
  | inst :: rest =>
    let instance_id := inst.id.getD ""
    let name := inst.name.getD instance_id
    let region := inst.region.getD "unknown"
    let state := inst.state.getD ""
    (if state = "stopped" then
      [{ resource_type := "EC2", resource_id := instance_id,
         resource_name := name, region := region,
         severity := AlertSeverity.WARNING,
         message := "Instance is stopped" }]
     else []) ++
    (if check_cpu ∧ state = "running" then
      match cpu_lookup instance_id region with
      | none => []
      | some cpu =>
        if cpu > 90 then
          [{ resource_type := "EC2", resource_id := instance_id,
             resource_name := name, region := region,
             severity := AlertSeverity.CRITICAL,
             message := "High CPU utilization: " ++ formatFixed1 cpu ++ "%" }]
        else if cpu > 70 then
          [{ resource_type := "EC2", resource_id := instance_id,
             resource_name := name, region := region,
             severity := AlertSeverity.WARNING,
             message := "Elevated CPU utilization: " ++
               formatFixed1 cpu ++ "%" }]
        else []
     else []) ++
    detect_ec2_alerts rest check_cpu cpu_lookup

/-- Embedding of `detect_rds_alerts(instances)`.  Python's truthiness
test `if status and status != "available"` becomes
`status ≠ "" ∧ status ≠ "available"`. -/
def detect_rds_alerts (instances : List RdsInstance) : List Alert :=
  match instances with
  | [] => []
  | inst :: rest =>
    let db_id := inst.id.getD ""
    let region := inst.region.getD "unknown"
    let status := inst.status.getD ""
    (if status ≠ "" ∧ status ≠ "available" then
      [{ resource_type := "RDS", resource_id := db_id,
         resource_name := db_id, region := region,
         severity := AlertSeverity.CRITICAL,
         message := "Database status: " ++ status }]
     else []) ++
    detect_rds_alerts rest

/-- The sort key of `get_all_alerts`:
`lambda a: 0 if a.severity == AlertSeverity.CRITICAL else 1`. -/
def alert_sort_key (a : Alert) : Nat :=
  if a.severity = AlertSeverity.CRITICAL then 0 else 1

/-- Embedding of `get_all_alerts(ec2_instances, rds_instances,
check_cpu)`: concatenate the two detectors' outputs and stable-sort by
`alert_sort_key` (Python's `list.sort` is stable; `List.mergeSort` is the
stable sort here). -/
def get_all_alerts (ec2_instances : List Ec2Instance)
    (rds_instances : List RdsInstance) (check_cpu : Bool)
    (cpu_lookup : String → String → Option ℚ) : List Alert :=
  let alerts := detect_ec2_alerts ec2_instances check_cpu cpu_lookup ++
    detect_rds_alerts rds_instances
  alerts.mergeSort fun a b => alert_sort_key a ≤ alert_sort_key b

lemma alert_sort_key_cases (a : Alert) :
    alert_sort_key a = 0 ∨ alert_sort_key a = 1 := by
  unfold alert_sort_key; split <;> simp

/-- A stable sort by a two-valued key is: all key-0 elements in input
order, then all key-1 elements in input order. -/
lemma mergeSort_key01 (l : List Alert) :
    (l.mergeSort fun a b => alert_sort_key a ≤ alert_sort_key b) =
      l.filter (fun a => alert_sort_key a == 0) ++
      l.filter (fun a => alert_sort_key a != 0) := by
  have trans : ∀ x y z : Alert,
      (decide (alert_sort_key x ≤ alert_sort_key y)) = true →
      (decide (alert_sort_key y ≤ alert_sort_key z)) = true →
      (decide (alert_sort_key x ≤ alert_sort_key z)) = true := by
    intro x y z hxy hyz
    simp only [decide_eq_true_eq] at *
    omega
  have total : ∀ x y : Alert,
      ((decide (alert_sort_key x ≤ alert_sort_key y)) ||
       (decide (alert_sort_key y ≤ alert_sort_key x))) = true := by
    intro x y
    simp only [Bool.or_eq_true, decide_eq_true_eq]
    omega
  induction l with
  | nil => simp
  | cons a t ih =>
    obtain ⟨l₁, l₂, h1, h2, h3⟩ := List.mergeSort_cons trans total a t
    by_cases ha : alert_sort_key a = 0
    · have hl₁ : l₁ = [] := by
        cases l₁ with
        | nil => rfl
        | cons b bs =>
          have hb := h3 b (List.mem_cons_self b bs)
          simp only [Bool.not_eq_eq_eq_not, Bool.not_true,
            decide_eq_false_iff_not, ha] at hb
          omega
      subst hl₁
      rw [List.nil_append] at h1 h2
      rw [h1, ← h2, ih]
      simp [List.filter_cons, ha]
    · have ha1 : alert_sort_key a = 1 := by
        rcases alert_sort_key_cases a with h | h
        · exact absurd h ha
        · exact h
      have hl₁0 : ∀ b ∈ l₁, alert_sort_key b = 0 := by
        intro b hb
        have hx := h3 b hb
        simp only [Bool.not_eq_eq_eq_not, Bool.not_true,
          decide_eq_false_iff_not, ha1] at hx
        omega
      have hsorted := List.sorted_mergeSort trans total (a :: t)
      rw [h1] at hsorted
      have hl₂1 : ∀ b ∈ l₂, alert_sort_key b = 1 := by
        intro b hb
        have hx := (List.pairwise_append.mp hsorted).2.1
        have := (List.pairwise_cons.mp hx).1 b hb
        simp only [decide_eq_true_eq, ha1] at this
        rcases alert_sort_key_cases b with h | h
        · omega
        · exact h
      have e : l₁ ++ l₂ = t.filter (fun a => alert_sort_key a == 0) ++
          t.filter (fun a => alert_sort_key a != 0) := by
        rw [← h2, ih]
      have el₁ : l₁ = t.filter (fun a => alert_sort_key a == 0) := by
        have lhs : (l₁ ++ l₂).filter (fun a => alert_sort_key a == 0) = l₁ := by
          have p1 : l₁.filter (fun a => alert_sort_key a == 0) = l₁ :=
            List.filter_eq_self.mpr fun b hb => by simp [hl₁0 b hb]
          have p2 : l₂.filter (fun a => alert_sort_key a == 0) = [] :=
            List.filter_eq_nil_iff.mpr fun b hb => by simp [hl₂1 b hb]
          rw [List.filter_append, p1, p2, List.append_nil]
        have rhs : (t.filter (fun a => alert_sort_key a == 0) ++
            t.filter (fun a => alert_sort_key a != 0)).filter
              (fun a => alert_sort_key a == 0) =
            t.filter (fun a => alert_sort_key a == 0) := by
          have p1 : (t.filter (fun a => alert_sort_key a == 0)).filter
              (fun a => alert_sort_key a == 0) =
              t.filter (fun a => alert_sort_key a == 0) :=
            List.filter_eq_self.mpr fun b hb => by
              have hx := List.of_mem_filter hb
              exact hx
          have p2 : (t.filter (fun a => alert_sort_key a != 0)).filter
              (fun a => alert_sort_key a == 0) = [] :=
            List.filter_eq_nil_iff.mpr fun b hb => by
              have hx := List.of_mem_filter hb
              simp only [bne_iff_ne, ne_eq] at hx
              simp [hx]
          rw [List.filter_append, p1, p2, List.append_nil]
        rw [← lhs, e, rhs]
      have el₂ : l₂ = t.filter (fun a => alert_sort_key a != 0) := by
        have hx := e
        rw [el₁] at hx
        exact List.append_cancel_left hx
      rw [h1, el₁, el₂]
      simp [List.filter_cons, ha]

lemma alert_key_zero_iff (a : Alert) :
    (alert_sort_key a == 0) = (a.severity == AlertSeverity.CRITICAL) := by
  cases h : a.severity <;> simp [alert_sort_key, h]

lemma alert_key_nonzero_iff (a : Alert) :
    (alert_sort_key a != 0) = (a.severity != AlertSeverity.CRITICAL) := by
  cases h : a.severity <;> simp [alert_sort_key, h]

/-- Claim C9 (confirmed): `get_all_alerts` is the concatenation of the
EC2-family alerts followed by the RDS-family alerts, stable-sorted so all
CRITICAL alerts precede all non-CRITICAL (i.e. WARNING) alerts with the
relative order inside each severity band preserved from the concatenated
order — equivalently, it equals the CRITICAL alerts of the concatenation
in order, followed by the remaining alerts in order. -/
theorem all_alerts_severity_ordering (ec2 : List Ec2Instance)
    (rds : List RdsInstance) (check_cpu : Bool)
    (cpu_lookup : String → String → Option ℚ) :
    get_all_alerts ec2 rds check_cpu cpu_lookup =
      (detect_ec2_alerts ec2 check_cpu cpu_lookup ++
        detect_rds_alerts rds).filter
          (fun a => a.severity == AlertSeverity.CRITICAL) ++
      (detect_ec2_alerts ec2 check_cpu cpu_lookup ++
        detect_rds_alerts rds).filter
          (fun a => a.severity != AlertSeverity.CRITICAL) := by
  unfold get_all_alerts
  rw [mergeSort_key01]
  rw [funext alert_key_zero_iff, funext alert_key_nonzero_iff]

/-- Claim C3, counterexample: a running instance whose latest CPU value
is exactly 90 gets a WARNING "Elevated CPU utilization" alert, not the
CRITICAL alert the claim's inclusive `≥ 90` comparison demands (the code
compares with strict `>`). -/
theorem ec2_cpu_inclusive_cex :
    detect_ec2_alerts
        [{ id := some "i-1", name := some "web", region := some "us-east-1",
           state := some "running" }] true (fun _ _ => some 90) =
      [{ resource_type := "EC2", resource_id := "i-1",
         resource_name := "web", region := "us-east-1",
         severity := AlertSeverity.WARNING,
         message := "Elevated CPU utilization: 90.0%" }]
  ∧ ∀ a ∈ detect_ec2_alerts
        [{ id := some "i-1", name := some "web", region := some "us-east-1",
           state := some "running" }] true (fun _ _ => some 90),
      a.severity ≠ AlertSeverity.CRITICAL := by
  have hf : formatFixed1 90 = "90.0" := by rfl
  have h : detect_ec2_alerts
      [{ id := some "i-1", name := some "web", region := some "us-east-1",
         state := some "running" }] true (fun _ _ => some 90) =
      [{ resource_type := "EC2", resource_id := "i-1",
         resource_name := "web", region := "us-east-1",
         severity := AlertSeverity.WARNING,
         message := "Elevated CPU utilization: 90.0%" }] := by
    rw [detect_ec2_alerts, detect_ec2_alerts]
    norm_num [hf]
    decide
  refine ⟨h, ?_⟩
  rw [h]
  intro a ha
  simp only [List.mem_singleton] at ha
  subst ha
  decide

/-- Claim C3 (corrected): with CPU checking enabled, a running instance
at any position of the inventory contributes, in place, exactly one
CRITICAL "High CPU utilization" alert when its looked-up CPU value is
present and strictly above 90, exactly one WARNING "Elevated CPU
utilization" alert when the value is strictly above 70 (and at most 90),
and no alert for this check when the lookup returns absent or the value
is at most 70 — the comparisons are strict/exclusive at 90 and 70, not
inclusive. -/
theorem ec2_cpu_alert_strict_bands (pre post : List Ec2Instance)
    (inst : Ec2Instance) (cpu_lookup : String → String → Option ℚ)
    (hstate : inst.state.getD "" = "running") :
    detect_ec2_alerts (pre ++ inst :: post) true cpu_lookup =
      detect_ec2_alerts pre true cpu_lookup ++
      (match cpu_lookup (inst.id.getD "") (inst.region.getD "unknown") with
       | none => []
       | some cpu =>
         if cpu > 90 then
           [{ resource_type := "EC2", resource_id := inst.id.getD "",
              resource_name := inst.name.getD (inst.id.getD ""),
              region := inst.region.getD "unknown",
              severity := AlertSeverity.CRITICAL,
              message := "High CPU utilization: " ++ formatFixed1 cpu ++ "%" }]
         else if cpu > 70 then
           [{ resource_type := "EC2", resource_id := inst.id.getD "",
              resource_name := inst.name.getD (inst.id.getD ""),
              region := inst.region.getD "unknown",
              severity := AlertSeverity.WARNING,
              message := "Elevated CPU utilization: " ++
                formatFixed1 cpu ++ "%" }]
         else []) ++
      detect_ec2_alerts post true cpu_lookup := by
  induction pre with
  | nil =>
    simp only [List.nil_append]
    simp [detect_ec2_alerts, hstate]
  | cons a pre ih =>
    simp only [List.cons_append]
    rw [detect_ec2_alerts]
    rw [ih]
    rw [detect_ec2_alerts]
    simp [List.append_assoc]

/-- A concrete running EC2 inventory record, used to witness
`ec2_cpu_alert_strict_bands`. -/
def sampleRunningInstance : Ec2Instance :=
  { id := some "i-1", name := some "web", region := some "us-east-1",
    state := some "running" }

/-- A concrete CPU lookup returning 95 for every (id, region) pair. -/
def sampleCpuLookup95 : String → String → Option ℚ := fun _ _ => some 95

/-- Witness for `ec2_cpu_alert_strict_bands`: a single running instance
with looked-up CPU value 95. -/
theorem ec2_cpu_alert_strict_bands_witness :
    sampleRunningInstance.state.getD "" = "running"
  ∧ detect_ec2_alerts ([] ++ sampleRunningInstance :: [])
      true sampleCpuLookup95 =
    detect_ec2_alerts [] true sampleCpuLookup95 ++
      (match sampleCpuLookup95 (sampleRunningInstance.id.getD "")
          (sampleRunningInstance.region.getD "unknown") with
       | none => []
       | some cpu =>
         if cpu > 90 then
           [{ resource_type := "EC2",
              resource_id := sampleRunningInstance.id.getD "",
              resource_name := sampleRunningInstance.name.getD
                (sampleRunningInstance.id.getD ""),
              region := sampleRunningInstance.region.getD "unknown",
              severity := AlertSeverity.CRITICAL,
              message := "High CPU utilization: " ++ formatFixed1 cpu ++ "%" }]
         else if cpu > 70 then
           [{ resource_type := "EC2",
              resource_id := sampleRunningInstance.id.getD "",
              resource_name := sampleRunningInstance.name.getD
                (sampleRunningInstance.id.getD ""),
              region := sampleRunningInstance.region.getD "unknown",
              severity := AlertSeverity.WARNING,
              message := "Elevated CPU utilization: " ++
                formatFixed1 cpu ++ "%" }]
         else []) ++
      detect_ec2_alerts [] true sampleCpuLookup95 :=
  ⟨rfl,
   ec2_cpu_alert_strict_bands [] [] sampleRunningInstance
     sampleCpuLookup95 rfl⟩

/-! ## Multi-region fan-out and aggregation (`src/aws/regions.py`) -/

/-- A flat inventory record as the aggregator sees it: an optional
`region` field (absent, or possibly already set by the query function)
plus an opaque payload standing for all the other keys. -/
structure Record where
  region : Option String
  payload : String
deriving DecidableEq, Repr

/-- One element of a per-region result list.  `aggregate_results` stamps
the region only on items that are dicts (`isinstance(item, dict)`);
non-dict items are passed through unchanged, so both shapes are kept. -/
inductive Item where
  | dict (r : Record)
  | raw (s : String)
deriving DecidableEq, Repr

/-- A single region's raw query result, as `aggregate_results` inspects
it: a dict (modelled by its list-valued entries, since `result[key]` is
iterated and extended into the output), a plain list, or anything else
(skipped). -/
inductive RegionResult where
  | dictRes (entries : List (String × List Item))
  | listRes (items : List Item)
  | other
deriving DecidableEq, Repr

/-- `MAX_WORKERS` of `regions.py` (bounds concurrency only; it does not
affect the per-region results). -/
def MAX_WORKERS : Nat := 10

/-- The per-region outcome stored in the mapping `query_regions` builds:
the query's value on success, or — when the query raises — the error
descriptor dict `\x7b"error": str(e), "instances": []\x7d`. -/
inductive QueryOutcome (α : Type) where
  | success (value : α)
  | errorDescriptor (error : String) (instances : List Item)
deriving DecidableEq, Repr

/-- Embedding of `query_regions(regions, query_fn, max_workers)`.  The
thread pool runs one task per region with no shared mutable state; each
task writes only its own key and its entry depends only on
`query_fn(region)`, so the resulting mapping (here an association list
keyed in input order; Python's dict insertion order is completion order
and is unspecified) is deterministic per key.  The `max_workers`
parameter (default `MAX_WORKERS`) only bounds concurrency and is omitted
from the embedding.  A raising query is `Except.error`, caught and
recorded as an error descriptor; nothing propagates. -/
def query_regions {α : Type} (regions : List String)
    (query_fn : String → Except String α) :
    List (String × QueryOutcome α) :=
  regions.map fun region =>
    (region,
      match query_fn region with
      | Except.ok v => QueryOutcome.success v
      | Except.error e => QueryOutcome.errorDescriptor e [])

/-- Region-stamping of one item (`item["region"] = region` when the item
is a dict, identity otherwise). -/
def stamp_region (region : String) : Item → Item
  | Item.dict r => Item.dict { r with region := some region }
  | Item.raw s => Item.raw s

/-- The items one region's result contributes before stamping:
`result[key]` when the result is a dict containing `key`, the result
itself when it is a list, nothing otherwise. -/
def extract_items (key : String) : RegionResult → List Item
  | RegionResult.dictRes entries =>
    match entries.lookup key with
    | some items => items
    | none => []
  | RegionResult.listRes items => items
  | RegionResult.other => []

/-- Embedding of `aggregate_results(region_results, key)`: iterate the
mapping in order, stamp each dict item with its region key, and
concatenate. -/
def aggregate_results (region_results : List (String × RegionResult))
    (key : String) : List Item :=
  match region_results with
  | [] => []
  | (region, result) :: rest =>
    (extract_items key result).map (stamp_region region) ++
      aggregate_results rest key

lemma lookup_query_regions {α : Type} (regions : List String)
    (query_fn : String → Except String α) (r : String) (h : r ∈ regions) :
    (query_regions regions query_fn).lookup r =
      some (match query_fn r with
            | Except.ok v => QueryOutcome.success v
            | Except.error e => QueryOutcome.errorDescriptor e []) := by
  induction regions with
  | nil => cases h
  | cons a t ih =>
    simp only [query_regions, List.map_cons, List.lookup]
    by_cases hra : r = a
    · subst hra
      simp
    · have hb : (r == a) = false := by simp [hra]
      rw [hb]
      have hm : r ∈ t := by
        rcases List.mem_cons.mp h with h1 | h1
        · exact absurd h1 hra
        · exact h1
      exact ih hm

/-- Claim C1 (confirmed): for a non-empty list of distinct regions, the
fan-out's mapping has key set exactly the input regions (in order, hence
no region missing and none added); a region whose query succeeds maps to
its result, a region whose query raises maps to an error descriptor
carrying the exception message and an empty instance list (nothing
propagates — the embedding is total); and a region's entry depends only
on the query's outcome at that region, so other regions' failures leave
it unaffected. -/
theorem query_regions_fanout {α : Type} (regions : List String)
    (query_fn : String → Except String α)
    (hne : regions ≠ []) (hnd : regions.Nodup) :
    ((query_regions regions query_fn).map Prod.fst = regions)
  ∧ (∀ r ∈ regions, ∀ v, query_fn r = Except.ok v →
      (query_regions regions query_fn).lookup r =
        some (QueryOutcome.success v))
  ∧ (∀ r ∈ regions, ∀ e, query_fn r = Except.error e →
      (query_regions regions query_fn).lookup r =
        some (QueryOutcome.errorDescriptor e []))
  ∧ (∀ r ∈ regions, ∀ query_fn' : String → Except String α,
      query_fn' r = query_fn r →
      (query_regions regions query_fn').lookup r =
        (query_regions regions query_fn).lookup r) := by
  refine ⟨?_, ?_, ?_, ?_⟩
  · simp only [query_regions, List.map_map]
    have hid : (Prod.fst ∘ fun region : String =>
        (region,
          match query_fn region with
          | Except.ok v => QueryOutcome.success v
          | Except.error e => QueryOutcome.errorDescriptor e [])) = id := rfl
    rw [hid, List.map_id]
  · intro r hr v hv
    rw [lookup_query_regions regions query_fn r hr, hv]
  · intro r hr e he
    rw [lookup_query_regions regions query_fn r hr, he]
  · intro r hr qf' hq
    rw [lookup_query_regions regions query_fn r hr,
      lookup_query_regions regions qf' r hr, hq]

/-- Two distinct concrete regions, used to witness
`query_regions_fanout`. -/
def sampleRegions : List String := ["us-east-1", "eu-west-1"]

/-- A concrete query function that raises for eu-west-1 and succeeds
(with zero records) elsewhere. -/
def sampleQuery : String → Except String (List Item) := fun r =>
  if r = "eu-west-1" then Except.error "simulated timeout"
  else Except.ok []

/-- Witness for `query_regions_fanout` on `sampleRegions` and
`sampleQuery`. -/
theorem query_regions_fanout_witness :
    sampleRegions ≠ []
  ∧ sampleRegions.Nodup
  ∧ (((query_regions sampleRegions sampleQuery).map Prod.fst = sampleRegions)
    ∧ (∀ r ∈ sampleRegions, ∀ v, sampleQuery r = Except.ok v →
        (query_regions sampleRegions sampleQuery).lookup r =
          some (QueryOutcome.success v))
    ∧ (∀ r ∈ sampleRegions, ∀ e, sampleQuery r = Except.error e →
        (query_regions sampleRegions sampleQuery).lookup r =
          some (QueryOutcome.errorDescriptor e []))
    ∧ (∀ r ∈ sampleRegions, ∀ query_fn' : String → Except String (List Item),
        query_fn' r = sampleQuery r →
        (query_regions sampleRegions query_fn').lookup r =
          (query_regions sampleRegions sampleQuery).lookup r)) :=
  ⟨by decide, by decide,
   query_regions_fanout sampleRegions sampleQuery (by decide) (by decide)⟩

/-- Claim C4 (confirmed): every dict record in the output of
`aggregate_results` carries as its region field exactly the mapping key
of the region entry it was extracted from, regardless of any region
value the raw record carried before stamping. -/
theorem aggregate_region_stamping
    (region_results : List (String × RegionResult)) (key : String)
    (r : Record) (h : Item.dict r ∈ aggregate_results region_results key) :
    ∃ p ∈ region_results, r.region = some p.1 ∧
      ∃ r₀ : Record, Item.dict r₀ ∈ extract_items key p.2 ∧
        r = { r₀ with region := some p.1 } := by
  induction region_results with
  | nil => cases h
  | cons hd rest ih =>
    obtain ⟨region, result⟩ := hd
    rw [aggregate_results] at h
    rcases List.mem_append.mp h with h1 | h1
    · obtain ⟨item, hitem, hmap⟩ := List.mem_map.mp h1
      cases item with
      | dict r₀ =>
        simp only [stamp_region, Item.dict.injEq] at hmap
        refine ⟨(region, result), List.mem_cons_self _ _, ?_, r₀, hitem, ?_⟩
        · rw [← hmap]
        · rw [← hmap]
      | raw s =>
        simp only [stamp_region] at hmap
        cases hmap
    · obtain ⟨p, hp, hreg, r₀, hr₀, heq⟩ := ih h1
      exact ⟨p, List.mem_cons_of_mem _ hp, hreg, r₀, hr₀, heq⟩

/-- A one-region result map whose single record already carries a
different region value, used to witness `aggregate_region_stamping`. -/
def sampleRegionResults : List (String × RegionResult) :=
  [("us-east-1",
    RegionResult.listRes
      [Item.dict { region := some "eu-west-1", payload := "i-42" }])]

/-- The record of `sampleRegionResults` after stamping. -/
def sampleStampedRecord : Record :=
  { region := some "us-east-1", payload := "i-42" }

/-- Witness for `aggregate_region_stamping` on `sampleRegionResults`. -/
theorem aggregate_region_stamping_witness :
    Item.dict sampleStampedRecord ∈
      aggregate_results sampleRegionResults "instances"
  ∧ ∃ p ∈ sampleRegionResults,
      sampleStampedRecord.region = some p.1 ∧
      ∃ r₀ : Record, Item.dict r₀ ∈ extract_items "instances" p.2 ∧
        sampleStampedRecord = { r₀ with region := some p.1 } :=
  ⟨by decide,
   aggregate_region_stamping sampleRegionResults "instances"
     sampleStampedRecord (by decide)⟩
